import Mathlib

/-!
Shallow embedding of `src/utils.py` of the series-scraper repository
(functions `get_top_list`, `get_last_season`, `get_ratings`) together with
theorems settling the specification claims.

Modelling conventions:
* HTML pages are modelled at the granularity the code queries them:
  a top-list page is the list of its title cells (combined text plus the
  optional anchor node), a detail page is the optional season-selector
  control (with its aria-label attribute), a season page is the list of
  its per-episode info blocks (their optional description / rating /
  vote-count text nodes and the optional episode-number meta node).
* Network fetches are abstracted as functions from the URL string to the
  page the scraper would receive for that URL.
* Python exceptions are modelled with `Except PyError`; an unhandled
  exception aborts the function with that error.
* The pandas DataFrame `top_list` is a list of `TopRow` records; console
  output is a list of emitted strings.  Both live in `ScrapeState`, which
  the two session-based functions thread through explicitly, so that frame
  properties about `top_list` are expressible.
* Python string operations (`split`, `strip`, `replace`, `int`, `float`,
  `upper`) are embedded as executable functions over `List Char`; all
  separators the code uses are single characters.
-/

deriving instance DecidableEq for Except

/-- Python exception kinds relevant to the script. -/
inductive PyError where
  | valueError
  | nameError
  | typeError
  | indexError
  | overflowError
  deriving DecidableEq, Repr

/-- Split a character list at every occurrence of `sep`, Python
`str.split(sep)` semantics for a one-character separator: empty pieces are
kept and the result is never empty. -/
def splitChar (sep : Char) : List Char → List (List Char)
  | [] => [[]]
  | c :: cs =>
    let r := splitChar sep cs
    if c = sep then [] :: r
    else
      match r with
      | h :: t => (c :: h) :: t
      | [] => [[c]]

/-- Python `s.split(sep)` for a one-character separator. -/
def pySplit (sep : Char) (s : String) : List String :=
  (splitChar sep s.data).map String.mk

/-- Python `s.replace(old, "")` for a one-character pattern: removes every
occurrence. -/
def pyRemove (old : Char) (s : String) : String :=
  String.mk (s.data.filter (fun c => c ≠ old))

/-- Python `s.strip()`: drop leading and trailing whitespace. -/
def pyStrip (s : String) : String :=
  String.mk (((s.data.dropWhile Char.isWhitespace).reverse.dropWhile
    Char.isWhitespace).reverse)

/-- Python `s.upper()` (ASCII-adequate for the names the script prints). -/
def pyUpper (s : String) : String :=
  String.mk (s.data.map Char.toUpper)

/-- Value of a decimal digit list, `none` unless it is non-empty and all
digits. -/
def digitsToNat (cs : List Char) : Option Nat :=
  if cs ≠ [] ∧ cs.all Char.isDigit then
    some (cs.foldl (fun n c => 10 * n + (c.toNat - '0'.toNat)) 0)
  else none

/-- Python `int(s)` on decimal literals: surrounding whitespace, an
optional sign, then digits.  (Underscore digit grouping and other bases
are not used by the scraped texts and are not modelled.) -/
def pyInt (s : String) : Option Int :=
  let t := (pyStrip s).data
  match t with
  | '-' :: ds => (digitsToNat ds).map (fun n => -(n : Int))
  | '+' :: ds => (digitsToNat ds).map (fun n => (n : Int))
  | ds => (digitsToNat ds).map (fun n => (n : Int))

/-- Python `float(s)` on plain decimal literals (optional sign, digits,
optional fractional part), modelled exactly over ℚ.  Exponents, `inf` and
`nan` do not occur in the scraped rating texts and are not modelled. -/
def pyFloat (s : String) : Option ℚ :=
  let t := (pyStrip s).data
  let signed : Int × List Char :=
    match t with
    | '-' :: rest => (-1, rest)
    | '+' :: rest => (1, rest)
    | rest => (1, rest)
  match splitChar '.' signed.2 with
  | [ds] => (digitsToNat ds).map (fun n => mkRat (signed.1 * (n : Int)) 1)
  | [ip, fp] =>
    if ip = [] ∧ fp = [] then none
    else if (ip = [] ∨ (digitsToNat ip).isSome) ∧
            (fp = [] ∨ (digitsToNat fp).isSome) then
      some (mkRat
        (signed.1 *
          (((digitsToNat ip).getD 0 * 10 ^ fp.length +
            (digitsToNat fp).getD 0 : Nat) : Int))
        (10 ^ fp.length))
    else none
  | _ => none

/-- Bounds of numpy int64. -/
def int64Min : Int := -(2 ^ 63)

/-- Upper bound of numpy int64. -/
def int64Max : Int := 2 ^ 63 - 1

/-- Conversion of a Python int to numpy int64 during `astype('int64')`:
out-of-range values abort. -/
def toInt64 (v : Int) : Except PyError Int :=
  if int64Min ≤ v ∧ v ≤ int64Max then .ok v else .error .overflowError

/-- `astype('int64')` applied to one string cell: parse as Python int and
range-check. -/
def pyInt64 (s : String) : Except PyError Int :=
  match pyInt s with
  | some v => toInt64 v
  | none => .error .valueError

/-- A heterogeneous pre-`astype` cell value: the loop stores either the
string scraped from the page or an int sentinel. -/
inductive PyVal where
  | s (v : String)
  | i (v : Int)
  deriving DecidableEq, Repr

/-- `astype('int64')` on a pre-`astype` cell. -/
def pyInt64Val : PyVal → Except PyError Int
  | .i n => toInt64 n
  | .s t => pyInt64 t

/-- `astype('float64')` on a pre-`astype` cell, value modelled in ℚ. -/
def pyFloatVal : PyVal → Except PyError ℚ
  | .i n => .ok (mkRat n 1)
  | .s t =>
    match pyFloat t with
    | some q => .ok q
    | none => .error .valueError

/-- An anchor element, reduced to its href attribute. -/
structure Anchor where
  href : String
  deriving DecidableEq, Repr

/-- A title cell of the top-list page: its combined text and the result of
`ser.find("a")` (None when no anchor exists). -/
structure TitleCell where
  text : String
  anchor : Option Anchor
  deriving DecidableEq, Repr

/-- The ranked listing page, as the list of `td.titleColumn` cells found
by the soup query. -/
structure TopListPage where
  cells : List TitleCell
  deriving DecidableEq, Repr

/-- One row of the `top_list` DataFrame after the `series_id` column has
been added.  All four scraped columns are string-typed: `get_top_list`
never converts them to numbers. -/
structure TopRow where
  series_name : String
  series_rank : String
  series_origin_year : String
  series_link : String
  series_id : String
  deriving DecidableEq, Repr

/-- A row before the derived `series_id` column exists. -/
structure TopRowBase where
  series_name : String
  series_rank : String
  series_origin_year : String
  series_link : String
  deriving DecidableEq, Repr

/-- The season-selector control (`select#browse-episodes-season`), reduced
to its aria-label attribute. -/
structure SeasonSelector where
  ariaLabel : String
  deriving DecidableEq, Repr

/-- A series detail page: the optional season-selector control. -/
structure DetailPage where
  selector : Option SeasonSelector
  deriving DecidableEq, Repr

/-- The episode-number meta node, reduced to its content attribute. -/
structure MetaNode where
  content : String
  deriving DecidableEq, Repr

/-- One per-episode info block of a season page: the text of the optional
description / rating / vote-count nodes, and the optional episode-number
meta node. -/
structure EpisodeInfo where
  description : Option String
  rating : Option String
  totalVotes : Option String
  episodeNumber : Option MetaNode
  deriving DecidableEq, Repr

/-- A season episode-listing page, as the list of `class="info"` blocks. -/
structure SeasonPage where
  infos : List EpisodeInfo
  deriving DecidableEq, Repr

/-- Per-cell extraction of `get_top_list` (loop body, lines 31-62 of
`src/utils.py`): `series_rank` is `text.split(".")[0].strip()`,
`series_title` is `text.split(".")[1].split("(")[0].strip()`,
`series_year` is `text.split("(")[1].replace(")", "").strip()`, and
`series_link` is `ser.find("a")["href"]` (a TypeError when the cell has no
anchor, raised when the row dict is built, after the three text fields). -/
def parseCell (cell : TitleCell) : Except PyError TopRowBase :=
  let byDot := pySplit '.' cell.text
  let byParen := pySplit '(' cell.text
  let series_rank := pyStrip (byDot.headD "")
  match byDot.get? 1 with
  | none => .error .indexError
  | some piece1 =>
    let series_title := pyStrip ((pySplit '(' piece1).headD "")
    match byParen.get? 1 with
    | none => .error .indexError
    | some piece2 =>
      let series_year := pyStrip (pyRemove ')' piece2)
      match cell.anchor with
      | none => .error .typeError
      | some a =>
        .ok { series_name := series_title, series_rank := series_rank,
              series_origin_year := series_year, series_link := a.href }

/-- Sequence a fallible extraction over a list, aborting at the first
failure (the loop body raising terminates the whole run). -/
def mapExcept (f : α → Except PyError β) : List α → Except PyError (List β)
  | [] => .ok []
  | x :: xs =>
    match f x with
    | .error e => .error e
    | .ok y =>
      match mapExcept f xs with
      | .error e => .error e
      | .ok ys => .ok (y :: ys)

/-- The final column assignment of `get_top_list`:
`top_list['series_id'] = top_list['series_name'] + " (" +
top_list['series_origin_year'] + ")"`. -/
def addId (r : TopRowBase) : TopRow :=
  { series_name := r.series_name, series_rank := r.series_rank,
    series_origin_year := r.series_origin_year,
    series_link := r.series_link,
    series_id := r.series_name ++ " (" ++ r.series_origin_year ++ ")" }

/-- `get_top_list` (lines 16-70 of `src/utils.py`), with the fetched
listing page supplied as input: parse every title cell in order, then add
the derived `series_id` column to every row. -/
def get_top_list (page : TopListPage) : Except PyError (List TopRow) :=
  match mapExcept parseCell page.cells with
  | .error e => .error e
  | .ok rows => .ok (rows.map addId)

/-- Program state threaded through the session-based functions: the
`top_list` DataFrame held by the caller and the console output emitted so
far. -/
structure ScrapeState where
  top_list : List TopRow
  console : List String
  deriving DecidableEq, Repr

/-- `print(...)`: append one line to the console. -/
def emit (st : ScrapeState) (m : String) : ScrapeState :=
  { st with console := st.console ++ [m] }

/-- `top_list[top_list['series_name'] == series_name][f].item()`: the
pandas `.item()` call succeeds exactly when the boolean-mask selection has
a single row, and raises ValueError otherwise (zero rows or several). -/
def seriesItem (tl : List TopRow) (series_name : String)
    (f : TopRow → String) : Except PyError String :=
  match tl.filter (fun r => r.series_name == series_name) with
  | [r] => .ok (f r)
  | _ => .error .valueError

/-- The guarded link lookup shared by `get_last_season` (lines 84-87) and
`get_ratings` (lines 111-114): on ValueError the except clause only prints
the ambiguity message, leaving `series_link` unbound (`none`); execution
continues either way. -/
def lookupSeriesLink (st : ScrapeState) (series_name : String) :
    ScrapeState × Option String :=
  match seriesItem st.top_list series_name (fun r => r.series_link) with
  | .ok l => (st, some l)
  | .error _ =>
    (emit st (pyUpper series_name ++
      " references more than one series. Exclude it from the dataset."),
     none)

/-- URL of a series detail page: `f"https://www.imdb.com{series_link}"`. -/
def detailURL (series_link : String) : String :=
  "https://www.imdb.com" ++ series_link

/-- `get_last_season` (lines 74-104 of `src/utils.py`).  The fetch of the
detail page is abstracted by `fetchDetail`; `time.sleep` has no observable
effect in the model.  If the link lookup failed, the URL f-string
dereferences the unbound `series_link` and raises NameError.  If the
season-selector control is absent the count is 1, otherwise it is
`int(max_season['aria-label'].split(' ')[0])` (ValueError when the leading
token is not an int literal). -/
def get_last_season (series_name : String)
    (fetchDetail : String → DetailPage) (st : ScrapeState) :
    ScrapeState × Except PyError Int :=
  let st := emit st "########################################################################################"
  let st := emit st ("SCRAPING: " ++ pyUpper series_name)
  let lookedUp := lookupSeriesLink st series_name
  let st := lookedUp.1
  match lookedUp.2 with
  | none => (st, .error .nameError)
  | some series_link =>
    let page := fetchDetail (detailURL series_link)
    match page.selector with
    | none =>
      (emit st "##### TOTAL SEASONS: 1", .ok 1)
    | some sel =>
      match pyInt ((pySplit ' ' sel.ariaLabel).headD "") with
      | none => (st, .error .valueError)
      | some n =>
        (emit st ("##### TOTAL SEASONS: " ++ toString n), .ok n)

/-- The text cleanup applied to a present vote-count node:
`.replace("(", "").replace(")", "").replace(',', '')`. -/
def cleanVotes (t : String) : String :=
  pyRemove ',' (pyRemove ')' (pyRemove '(' t))

/-- The description try-block (lines 151-159): text of the
`div.item_description` node stripped, `"N/A"` when the node is absent
(AttributeError on `.text` of None). -/
def descField : Option String → String
  | some t => pyStrip t
  | none => "N/A"

/-- The rating try-block (lines 161-168): text of the first
`span.ipl-rating-star__rating` node, the int sentinel `-1` when absent. -/
def ratingField : Option String → PyVal
  | some t => .s t
  | none => .i (-1)

/-- The vote-count try-block (lines 170-180): cleaned text of the
`span.ipl-rating-star__total-votes` node, the int sentinel `0` when
absent. -/
def votesField : Option String → PyVal
  | some t => .s (cleanVotes t)
  | none => .i 0

/-- Possible values of the Python variable `number` after the
episode-number try-block: the found meta node, None, or the int `-1` set
by the except clause. -/
inductive NumberLookup where
  | node (m : MetaNode)
  | noNode
  | sentinel
  deriving DecidableEq, Repr

/-- `episode.find("meta", itemprop="episodeNumber")`: `episode` is a soup
Tag, so `find` never raises AttributeError; it returns the node or None. -/
def findEpisodeNumberMeta (ep : EpisodeInfo) :
    Except PyError (Option MetaNode) :=
  .ok ep.episodeNumber

/-- The episode-number try-block (lines 181-185): `number` is the lookup
result; the except clause would set `number = -1`, but only if the lookup
itself raised AttributeError. -/
def numberAfterTry (ep : EpisodeInfo) : NumberLookup :=
  match findEpisodeNumberMeta ep with
  | .ok (some m) => .node m
  | .ok none => .noNode
  | .error _ => .sentinel

/-- `number["content"]` (line 194): subscripting the meta node yields its
content attribute; subscripting None or the int `-1` raises TypeError. -/
def derefContent : NumberLookup → Except PyError String
  | .node m => .ok m.content
  | .noNode => .error .typeError
  | .sentinel => .error .typeError

/-- One pre-`astype` row of the episode DataFrame, holding the values
exactly as the loop stores them: top-list columns still strings, the
optional fields either scraped strings or int sentinels. -/
structure RawEpisodeRow where
  series_name : String
  series_rank : String
  series_origin_year : String
  series_link : String
  series_n_seasons : Int
  season : Int
  episode : String
  episode_rating : PyVal
  episode_total_votes : PyVal
  episode_description : String
  deriving DecidableEq, Repr

/-- One row after the final `astype` pass: 64-bit integer columns as Int,
the float64 rating as ℚ. -/
structure EpisodeRow where
  series_name : String
  series_rank : Int
  series_origin_year : Int
  series_link : String
  series_n_seasons : Int
  season : Int
  episode : Int
  episode_rating : ℚ
  episode_total_votes : Int
  episode_description : String
  deriving DecidableEq, Repr

/-- The per-episode loop body of `get_ratings` (lines 148-200): the four
try-blocks, then the row dict whose values are evaluated in order —
the two `.item()` lookups (ValueError when not exactly one top-list row
matches), then `number["content"]`. -/
def buildRawRow (series_name : String) (tl : List TopRow)
    (series_link : String) (seasons season : Int) (ep : EpisodeInfo) :
    Except PyError RawEpisodeRow :=
  let description := descField ep.description
  let rating := ratingField ep.rating
  let total_votes := votesField ep.totalVotes
  let number := numberAfterTry ep
  match seriesItem tl series_name (fun r => r.series_rank) with
  | .error e => .error e
  | .ok rank =>
    match seriesItem tl series_name (fun r => r.series_origin_year) with
    | .error e => .error e
    | .ok year =>
      match derefContent number with
      | .error e => .error e
      | .ok content =>
        .ok { series_name := series_name, series_rank := rank,
              series_origin_year := year, series_link := series_link,
              series_n_seasons := seasons, season := season,
              episode := content, episode_rating := rating,
              episode_total_votes := total_votes,
              episode_description := description }

/-- URL of a season episode-listing page:
`f"https://www.imdb.com{series_link}episodes?season={season}"`. -/
def seasonURL (series_link : String) (season : Int) : String :=
  "https://www.imdb.com" ++ series_link ++ "episodes?season=" ++
    toString season

/-- `np.arange(1, seasons + 1)` as a list of season indices. -/
def seasonIndices (seasons : Int) : List Int :=
  (List.range seasons.toNat).map (fun i => (i : Int) + 1)

/-- Scrape one season page: fetch it and run the per-episode loop body on
every info block. -/
def scrapeSeason (series_name : String) (tl : List TopRow)
    (series_link : String) (seasons : Int)
    (fetchSeason : String → SeasonPage) (season : Int) :
    Except PyError (List RawEpisodeRow) :=
  mapExcept (buildRawRow series_name tl series_link seasons season)
    (fetchSeason (seasonURL series_link season)).infos

/-- The season loop of `get_ratings` (lines 135-202).  `series_link` is
`none` when the lookup failed; the URL f-string then raises NameError at
the first iteration.  After each scraped season a progress line is
printed. -/
def seasonLoop (series_name : String) (tl : List TopRow)
    (series_link : Option String) (seasons : Int)
    (fetchSeason : String → SeasonPage) :
    ScrapeState → List Int → ScrapeState × Except PyError (List RawEpisodeRow)
  | st, [] => (st, .ok [])
  | st, s :: rest =>
    match series_link with
    | none => (st, .error .nameError)
    | some l =>
      match scrapeSeason series_name tl l seasons fetchSeason s with
      | .error e => (st, .error e)
      | .ok rows =>
        let st := emit st ("######## SEASON " ++ toString s ++ " SCRAPED")
        match seasonLoop series_name tl series_link seasons fetchSeason st rest with
        | (st2, .error e) => (st2, .error e)
        | (st2, .ok more) => (st2, .ok (rows ++ more))

/-- The final `df.astype({...})` pass (lines 207-220) applied to one row:
string columns unchanged, int64 columns via Python int conversion with an
int64 range check, the rating via float conversion. -/
def astypeRow (r : RawEpisodeRow) : Except PyError EpisodeRow :=
  match pyInt64 r.series_rank with
  | .error e => .error e
  | .ok rank =>
    match pyInt64 r.series_origin_year with
    | .error e => .error e
    | .ok year =>
      match toInt64 r.series_n_seasons with
      | .error e => .error e
      | .ok nSeasons =>
        match toInt64 r.season with
        | .error e => .error e
        | .ok season =>
          match pyInt64 r.episode with
          | .error e => .error e
          | .ok episode =>
            match pyFloatVal r.episode_rating with
            | .error e => .error e
            | .ok rating =>
              match pyInt64Val r.episode_total_votes with
              | .error e => .error e
              | .ok votes =>
                .ok { series_name := r.series_name, series_rank := rank,
                      series_origin_year := year,
                      series_link := r.series_link,
                      series_n_seasons := nSeasons, season := season,
                      episode := episode, episode_rating := rating,
                      episode_total_votes := votes,
                      episode_description := r.episode_description }

/-- `get_ratings` (lines 107-222 of `src/utils.py`): guarded link lookup,
nested `get_last_season` call (its own banner lines and fetch), the season
loop, two summary lines, then the one-pass `astype` over the whole
accumulated table. -/
def get_ratings (series_name : String)
    (fetchDetail : String → DetailPage)
    (fetchSeason : String → SeasonPage) (st : ScrapeState) :
    ScrapeState × Except PyError (List EpisodeRow) :=
  let lookedUp := lookupSeriesLink st series_name
  let st := lookedUp.1
  let inner := get_last_season series_name fetchDetail st
  let st := inner.1
  match inner.2 with
  | .error e => (st, .error e)
  | .ok seasons =>
    let st := emit st "##### GETTING EPISODES..."
    let looped := seasonLoop series_name st.top_list lookedUp.2 seasons
      fetchSeason st (seasonIndices seasons)
    let st := looped.1
    match looped.2 with
    | .error e => (st, .error e)
    | .ok raws =>
      let st := emit st (pyUpper series_name ++ " - TOTAL EPISODES: " ++
        toString raws.length)
      let st := emit st "########################################################################################"
      match mapExcept astypeRow raws with
      | .error e => (st, .error e)
      | .ok rows => (st, .ok rows)

/-! ### Basic lemmas about the embedded operations -/

theorem emit_top_list (st : ScrapeState) (m : String) :
    (emit st m).top_list = st.top_list := rfl

theorem emit_console (st : ScrapeState) (m : String) :
    (emit st m).console = st.console ++ [m] := rfl

theorem seriesItem_of_filter_eq (tl : List TopRow) (name : String)
    (f : TopRow → String) (r : TopRow)
    (h : tl.filter (fun row => row.series_name == name) = [r]) :
    seriesItem tl name f = .ok (f r) := by
  simp [seriesItem, h]

theorem seriesItem_of_filter_ne (tl : List TopRow) (name : String)
    (f : TopRow → String)
    (h : (tl.filter (fun row => row.series_name == name)).length ≠ 1) :
    seriesItem tl name f = .error .valueError := by
  unfold seriesItem
  cases hf : tl.filter (fun row => row.series_name == name) with
  | nil => rfl
  | cons a t =>
    cases t with
    | nil => rw [hf] at h; simp at h
    | cons b t2 => rfl

theorem lookupSeriesLink_of_filter_eq (st : ScrapeState) (name : String)
    (r : TopRow)
    (h : st.top_list.filter (fun row => row.series_name == name) = [r]) :
    lookupSeriesLink st name = (st, some r.series_link) := by
  simp [lookupSeriesLink, seriesItem_of_filter_eq _ _ _ _ h]

theorem lookupSeriesLink_of_filter_ne (st : ScrapeState) (name : String)
    (h : (st.top_list.filter (fun row => row.series_name == name)).length ≠ 1) :
    lookupSeriesLink st name =
      (emit st (pyUpper name ++
        " references more than one series. Exclude it from the dataset."),
       none) := by
  simp [lookupSeriesLink, seriesItem_of_filter_ne _ _ _ h]

/-! ### Behaviour of `get_last_season` -/

theorem get_last_season_top_list (series_name : String)
    (fetchDetail : String → DetailPage) (st : ScrapeState) :
    ((get_last_season series_name fetchDetail st).1).top_list =
      st.top_list := by
  unfold get_last_season lookupSeriesLink
  simp only [emit_top_list]
  cases h : seriesItem st.top_list series_name (fun r => r.series_link) with
  | error e => simp [h, emit]
  | ok l =>
    cases hsel : (fetchDetail (detailURL l)).selector with
    | none => simp [h, hsel, emit]
    | some sel =>
      simp only [h, hsel, emit]
      split <;> rfl

theorem get_last_season_of_no_selector (series_name : String)
    (fetchDetail : String → DetailPage) (st : ScrapeState) (r : TopRow)
    (h : st.top_list.filter (fun row => row.series_name == series_name) = [r])
    (hsel : (fetchDetail (detailURL r.series_link)).selector = none) :
    (get_last_season series_name fetchDetail st).2 = .ok 1 := by
  unfold get_last_season lookupSeriesLink
  simp only [emit_top_list, seriesItem_of_filter_eq _ _ _ r h, hsel]

theorem get_last_season_of_selector (series_name : String)
    (fetchDetail : String → DetailPage) (st : ScrapeState) (r : TopRow)
    (sel : SeasonSelector) (n : Int)
    (h : st.top_list.filter (fun row => row.series_name == series_name) = [r])
    (hsel : (fetchDetail (detailURL r.series_link)).selector = some sel)
    (hn : pyInt ((pySplit ' ' sel.ariaLabel).headD "") = some n) :
    (get_last_season series_name fetchDetail st).2 = .ok n := by
  unfold get_last_season lookupSeriesLink
  simp only [emit_top_list, seriesItem_of_filter_eq _ _ _ r h, hsel, hn]

theorem get_last_season_of_ambiguous (series_name : String)
    (fetchDetail : String → DetailPage) (st : ScrapeState)
    (h : (st.top_list.filter
      (fun row => row.series_name == series_name)).length ≠ 1) :
    (get_last_season series_name fetchDetail st).2 = .error .nameError ∧
    (get_last_season series_name fetchDetail st).1.console =
      st.console ++
        ["########################################################################################",
         "SCRAPING: " ++ pyUpper series_name,
         pyUpper series_name ++
           " references more than one series. Exclude it from the dataset."] := by
  unfold get_last_season lookupSeriesLink
  simp only [emit_top_list, seriesItem_of_filter_ne _ _ _ h]
  simp [emit]

/-! ### Concrete inputs used to instantiate the theorems -/

/-- A concrete top-list row. -/
def sampleRow : TopRow :=
  { series_name := "Breaking Bad", series_rank := "1",
    series_origin_year := "2008", series_link := "/title/tt0903747/",
    series_id := "Breaking Bad (2008)" }

/-- A state holding a one-row top list and an empty console. -/
def sampleState : ScrapeState := { top_list := [sampleRow], console := [] }

/-- A detail-page fetch whose page carries a season selector labelled
`"8 seasons"`. -/
def sampleDetailMulti : String → DetailPage :=
  fun _ => { selector := some { ariaLabel := "8 seasons" } }

/-- A detail-page fetch whose page has no season selector. -/
def sampleDetailSingle : String → DetailPage :=
  fun _ => { selector := none }

/-! ### C1 -/

/-- C1: season-count resolution.  For a series name matching exactly one
top-list row, `get_last_season` returns 1 when the fetched detail page has
no season-selector element, and otherwise returns the leading integer
token parsed from the selector aria-label attribute (a label `"8 seasons"`
yields 8; the parse is `int(label.split(' ')[0])`). -/
theorem get_last_season_season_count (series_name : String)
    (fetchDetail : String → DetailPage) (st : ScrapeState) (r : TopRow)
    (h : st.top_list.filter
      (fun row => row.series_name == series_name) = [r]) :
    ((fetchDetail (detailURL r.series_link)).selector = none →
      (get_last_season series_name fetchDetail st).2 = .ok 1) ∧
    (∀ sel n, (fetchDetail (detailURL r.series_link)).selector = some sel →
      pyInt ((pySplit ' ' sel.ariaLabel).headD "") = some n →
      (get_last_season series_name fetchDetail st).2 = .ok n) :=
  ⟨fun hsel => get_last_season_of_no_selector _ _ _ r h hsel,
   fun sel n hsel hn => get_last_season_of_selector _ _ _ r sel n h hsel hn⟩

/-- Witness for C1: on a one-row top list, a detail page labelled
`"8 seasons"` resolves to 8 seasons and a selector-free detail page
resolves to 1. -/
theorem get_last_season_season_count_witness :
    (get_last_season "Breaking Bad" sampleDetailMulti sampleState).2 =
      .ok 8 ∧
    (get_last_season "Breaking Bad" sampleDetailSingle sampleState).2 =
      .ok 1 :=
  ⟨(get_last_season_season_count "Breaking Bad" sampleDetailMulti
      sampleState sampleRow (by decide)).2
      { ariaLabel := "8 seasons" } 8 (by decide) (by decide),
   (get_last_season_season_count "Breaking Bad" sampleDetailSingle
      sampleState sampleRow (by decide)).1 (by decide)⟩

/-- Field characterization of a successful `parseCell`: each extracted
column equals the corresponding chain of Python string operations on the
cell text, and the link is the href of the anchor node. -/
theorem parseCell_ok_fields (cell : TitleCell) (r : TopRowBase)
    (h : parseCell cell = .ok r) :
    r.series_rank = pyStrip ((pySplit '.' cell.text).headD "") ∧
    r.series_name =
      pyStrip ((pySplit '(' ((pySplit '.' cell.text).getD 1 "")).headD "") ∧
    r.series_origin_year =
      pyStrip (pyRemove ')' ((pySplit '(' cell.text).getD 1 "")) ∧
    (∃ a, cell.anchor = some a ∧ r.series_link = a.href) := by
  cases hdot : (pySplit '.' cell.text).get? 1 with
  | none =>
    unfold parseCell at h
    simp only [hdot] at h
    exact Except.noConfusion h
  | some piece1 =>
    cases hpar : (pySplit '(' cell.text).get? 1 with
    | none =>
      unfold parseCell at h
      simp only [hdot, hpar] at h
      exact Except.noConfusion h
    | some piece2 =>
      cases hanc : cell.anchor with
      | none =>
        unfold parseCell at h
        simp only [hdot, hpar, hanc] at h
        exact Except.noConfusion h
      | some a =>
        unfold parseCell at h
        simp only [hdot, hpar, hanc, Except.ok.injEq] at h
        subst h
        refine ⟨rfl, ?_, ?_, a, rfl, rfl⟩
        · simp only [List.getD, ← List.get?_eq_getElem?, hdot,
            Option.getD_some]
        · simp only [List.getD, ← List.get?_eq_getElem?, hpar,
            Option.getD_some]

/-! ### C2 -/

/-- The claim wording for the extracted title: the substring of the cell
text between the first dot and the first opening parenthesis,
whitespace-stripped.  Stated from the spec sentence for comparison with
the code. -/
def claimedSeriesName (t : String) : String :=
  pyStrip (String.mk
    (((t.data.dropWhile (fun c => c ≠ '.')).drop 1).takeWhile
      (fun c => c ≠ '(')))

/-- The claim wording for the extracted origin year: the text inside the
first parenthesis group of the cell text.  Stated from the spec sentence
for comparison with the code. -/
def claimedSeriesYear (t : String) : String :=
  String.mk
    (((t.data.dropWhile (fun c => c ≠ '(')).drop 1).takeWhile
      (fun c => c ≠ ')'))

/-- Counterexample to C2 as stated: on the cell text
`"1. Dr. No (1962)"` the code extracts the title `"Dr"` (text between the
first and second dot, truncated at the first parenthesis), not the
substring `"Dr. No"` between the first dot and the first parenthesis; and
on `"1. Foo (1999) rerun (2008)"` it extracts the year `"1999 rerun"`,
not the content `"1999"` of the first parenthesis group. -/
theorem get_top_list_extraction_cex :
    parseCell { text := "1. Dr. No (1962)",
                anchor := some { href := "/title/tt0055928/" } } =
      .ok { series_name := "Dr", series_rank := "1",
            series_origin_year := "1962",
            series_link := "/title/tt0055928/" } ∧
    claimedSeriesName "1. Dr. No (1962)" = "Dr. No" ∧
    ("Dr" : String) ≠ "Dr. No" ∧
    parseCell { text := "1. Foo (1999) rerun (2008)",
                anchor := some { href := "/title/tt0000001/" } } =
      .ok { series_name := "Foo", series_rank := "1",
            series_origin_year := "1999 rerun",
            series_link := "/title/tt0000001/" } ∧
    claimedSeriesYear "1. Foo (1999) rerun (2008)" = "1999" ∧
    ("1999 rerun" : String) ≠ "1999" := by decide

/-- C2 (amended): for every title cell the code extracts
`series_rank` as the text before the first dot (stripped), `series_name`
as the text between the first and second dot truncated at its first
opening parenthesis (stripped), `series_origin_year` as the text between
the first and second opening parenthesis with every closing parenthesis
removed (stripped), and `series_link` as the href of the anchor; when the
title contains no extra dot or parenthesis these coincide with the
claimed shape.  The end-to-end scenario holds as stated: the one-row
listing `"1. Breaking Bad (2008)"` with link `/title/tt0903747/` yields
exactly one row with rank `"1"`, name `"Breaking Bad"`, year `"2008"`,
and id `"Breaking Bad (2008)"` (rank and year as strings, per the
semantic typing of §3 of the spec). -/
theorem get_top_list_extraction :
    (∀ cell r, parseCell cell = .ok r →
      r.series_rank = pyStrip ((pySplit '.' cell.text).headD "") ∧
      r.series_name =
        pyStrip ((pySplit '(' ((pySplit '.' cell.text).getD 1 "")).headD "") ∧
      r.series_origin_year =
        pyStrip (pyRemove ')' ((pySplit '(' cell.text).getD 1 "")) ∧
      (∃ a, cell.anchor = some a ∧ r.series_link = a.href)) ∧
    get_top_list { cells := [{ text := "1. Breaking Bad (2008)",
                               anchor := some { href := "/title/tt0903747/" } }] } =
      .ok [{ series_name := "Breaking Bad", series_rank := "1",
             series_origin_year := "2008",
             series_link := "/title/tt0903747/",
             series_id := "Breaking Bad (2008)" }] :=
  ⟨fun cell r h => parseCell_ok_fields cell r h, by decide⟩

/-- Concrete title cell used to instantiate theorems. -/
def bbCell : TitleCell :=
  { text := "1. Breaking Bad (2008)",
    anchor := some { href := "/title/tt0903747/" } }

/-- Parse result of `bbCell` before the id column. -/
def bbBase : TopRowBase :=
  { series_name := "Breaking Bad", series_rank := "1",
    series_origin_year := "2008", series_link := "/title/tt0903747/" }

/-- Witness for C2: the amended extraction formulas instantiated on the
Breaking Bad cell. -/
theorem get_top_list_extraction_witness :
    bbBase.series_rank = pyStrip ((pySplit '.' bbCell.text).headD "") ∧
    bbBase.series_name =
      pyStrip ((pySplit '(' ((pySplit '.' bbCell.text).getD 1 "")).headD "") ∧
    bbBase.series_origin_year =
      pyStrip (pyRemove ')' ((pySplit '(' bbCell.text).getD 1 "")) ∧
    (∃ a, bbCell.anchor = some a ∧ bbBase.series_link = a.href) :=
  get_top_list_extraction.1 bbCell bbBase (by decide)

/-! ### Lemmas about `mapExcept` -/

theorem mapExcept_ok_mem {α β : Type} {f : α → Except PyError β} :
    ∀ {xs : List α} {ys : List β}, mapExcept f xs = .ok ys →
      ∀ {y}, y ∈ ys → ∃ x ∈ xs, f x = .ok y := by
  intro xs
  induction xs with
  | nil =>
    intro ys h y hy
    unfold mapExcept at h
    simp only [Except.ok.injEq] at h
    subst h
    simp at hy
  | cons x xs ih =>
    intro ys h y hy
    unfold mapExcept at h
    cases hx : f x with
    | error e => simp only [hx] at h; exact Except.noConfusion h
    | ok b =>
      simp only [hx] at h
      cases hrest : mapExcept f xs with
      | error e => simp only [hrest] at h; exact Except.noConfusion h
      | ok bs =>
        simp only [hrest, Except.ok.injEq] at h
        subst h
        rcases List.mem_cons.mp hy with h1 | h2
        · exact ⟨x, List.mem_cons_self x xs, by rw [h1]; exact hx⟩
        · obtain ⟨x2, hx2, hfx2⟩ := ih hrest h2
          exact ⟨x2, List.mem_cons_of_mem x hx2, hfx2⟩

theorem mapExcept_ok_forall {α β : Type} {f : α → Except PyError β} :
    ∀ {xs : List α} {ys : List β}, mapExcept f xs = .ok ys →
      ∀ {x}, x ∈ xs → ∃ y, f x = .ok y := by
  intro xs
  induction xs with
  | nil =>
    intro ys h x hx
    simp at hx
  | cons a xs ih =>
    intro ys h x hx
    unfold mapExcept at h
    cases ha : f a with
    | error e => simp only [ha] at h; exact Except.noConfusion h
    | ok b =>
      simp only [ha] at h
      cases hrest : mapExcept f xs with
      | error e => simp only [hrest] at h; exact Except.noConfusion h
      | ok bs =>
        rcases List.mem_cons.mp hx with h1 | h2
        · exact ⟨b, by rw [h1]; exact ha⟩
        · exact ih hrest h2

theorem mapExcept_error_mem {α β : Type} {f : α → Except PyError β} :
    ∀ {xs : List α} {e : PyError}, mapExcept f xs = .error e →
      ∃ x ∈ xs, f x = .error e := by
  intro xs
  induction xs with
  | nil =>
    intro e h
    unfold mapExcept at h
    exact Except.noConfusion h
  | cons a xs ih =>
    intro e h
    unfold mapExcept at h
    cases ha : f a with
    | error e2 =>
      simp only [ha, Except.error.injEq] at h
      exact ⟨a, List.mem_cons_self a xs, by rw [ha, h]⟩
    | ok b =>
      simp only [ha] at h
      cases hrest : mapExcept f xs with
      | error e2 =>
        simp only [hrest, Except.error.injEq] at h
        obtain ⟨x2, hx2, hfx2⟩ := ih (by rw [hrest, h])
        exact ⟨x2, List.mem_cons_of_mem a hx2, hfx2⟩
      | ok bs => simp only [hrest] at h; exact Except.noConfusion h

theorem mapExcept_not_ok {α β : Type} {f : α → Except PyError β}
    {xs : List α} {x : α} {e : PyError} (hx : x ∈ xs)
    (hfx : f x = .error e) {ys : List β} : mapExcept f xs ≠ .ok ys := by
  intro h
  obtain ⟨y, hy⟩ := mapExcept_ok_forall h hx
  rw [hfx] at hy
  exact Except.noConfusion hy

/-- Field characterization of a successful `astypeRow`: every converted
column of the output is the declared conversion of the corresponding
accumulated cell, and the string columns pass through unchanged. -/
theorem astypeRow_ok_fields (raw : RawEpisodeRow) (row : EpisodeRow)
    (h : astypeRow raw = .ok row) :
    pyInt64 raw.series_rank = .ok row.series_rank ∧
    pyInt64 raw.series_origin_year = .ok row.series_origin_year ∧
    pyInt64 raw.episode = .ok row.episode ∧
    pyFloatVal raw.episode_rating = .ok row.episode_rating ∧
    pyInt64Val raw.episode_total_votes = .ok row.episode_total_votes ∧
    row.episode_description = raw.episode_description ∧
    row.series_name = raw.series_name := by
  unfold astypeRow at h
  cases h1 : pyInt64 raw.series_rank with
  | error e => simp only [h1] at h; exact Except.noConfusion h
  | ok rank =>
  simp only [h1] at h
  cases h2 : pyInt64 raw.series_origin_year with
  | error e => simp only [h2] at h; exact Except.noConfusion h
  | ok year =>
  simp only [h2] at h
  cases h3 : toInt64 raw.series_n_seasons with
  | error e => simp only [h3] at h; exact Except.noConfusion h
  | ok nSeasons =>
  simp only [h3] at h
  cases h4 : toInt64 raw.season with
  | error e => simp only [h4] at h; exact Except.noConfusion h
  | ok season =>
  simp only [h4] at h
  cases h5 : pyInt64 raw.episode with
  | error e => simp only [h5] at h; exact Except.noConfusion h
  | ok episode =>
  simp only [h5] at h
  cases h6 : pyFloatVal raw.episode_rating with
  | error e => simp only [h6] at h; exact Except.noConfusion h
  | ok rating =>
  simp only [h6] at h
  cases h7 : pyInt64Val raw.episode_total_votes with
  | error e => simp only [h7] at h; exact Except.noConfusion h
  | ok votes =>
  simp only [h7, Except.ok.injEq] at h
  subst h
  exact ⟨rfl, rfl, rfl, rfl, rfl, rfl, rfl⟩

/-! ### C5 -/

/-- C5: for every row of the table returned by `get_top_list`, the
derived `series_id` column equals
`series_name ++ " (" ++ series_origin_year ++ ")"`; the column is
computed for every row after the loop has fully populated the table. -/
theorem get_top_list_series_id (page : TopListPage) (rows : List TopRow)
    (h : get_top_list page = .ok rows) :
    ∀ r ∈ rows,
      r.series_id = r.series_name ++ " (" ++ r.series_origin_year ++ ")" := by
  intro r hr
  unfold get_top_list at h
  cases hm : mapExcept parseCell page.cells with
  | error e => simp only [hm] at h; exact Except.noConfusion h
  | ok base =>
    simp only [hm, Except.ok.injEq] at h
    subst h
    obtain ⟨b, hb, hbr⟩ := List.mem_map.mp hr
    subst hbr
    rfl

/-- Witness for C5: the one-row Breaking Bad listing. -/
theorem get_top_list_series_id_witness :
    sampleRow.series_id =
      sampleRow.series_name ++ " (" ++ sampleRow.series_origin_year ++ ")" :=
  get_top_list_series_id { cells := [bbCell] } [sampleRow] (by decide)
    sampleRow (by decide)

/-! ### C9 -/

/-- C9: the `series_rank` and `series_origin_year` values produced by
`get_top_list` are the raw stripped substrings of the cell text (held as
strings: `TopRow` stores them in string columns), the later `series_id`
assignment leaves them untouched, and the numeric coercion of those two
columns happens only in the final `astype` pass of `get_ratings`, via the
int64 conversion. -/
theorem top_list_rank_year_raw_strings :
    (∀ cell r, parseCell cell = .ok r →
      r.series_rank = pyStrip ((pySplit '.' cell.text).headD "") ∧
      r.series_origin_year =
        pyStrip (pyRemove ')' ((pySplit '(' cell.text).getD 1 ""))) ∧
    (∀ b, (addId b).series_rank = b.series_rank ∧
      (addId b).series_origin_year = b.series_origin_year) ∧
    (∀ raw row, astypeRow raw = .ok row →
      pyInt64 raw.series_rank = .ok row.series_rank ∧
      pyInt64 raw.series_origin_year = .ok row.series_origin_year) :=
  ⟨fun cell r h =>
    ⟨(parseCell_ok_fields cell r h).1,
     (parseCell_ok_fields cell r h).2.2.1⟩,
   fun _ => ⟨rfl, rfl⟩,
   fun raw row h =>
    ⟨(astypeRow_ok_fields raw row h).1,
     (astypeRow_ok_fields raw row h).2.1⟩⟩

/-- Witness for C9: instantiation on the Breaking Bad cell. -/
theorem top_list_rank_year_raw_strings_witness :
    bbBase.series_rank = pyStrip ((pySplit '.' bbCell.text).headD "") ∧
    bbBase.series_origin_year =
      pyStrip (pyRemove ')' ((pySplit '(' bbCell.text).getD 1 "")) :=
  top_list_rank_year_raw_strings.1 bbCell bbBase (by decide)

/-! ### Lemmas about the per-episode loop body -/

/-- A successful `buildRawRow` on a uniquely matching top list with a
present episode-number node: the full row, with each optional column the
value of its own per-field extractor. -/
theorem buildRawRow_ok_fields (series_name : String) (tl : List TopRow)
    (series_link : String) (seasons season : Int) (ep : EpisodeInfo)
    (r : TopRow) (m : MetaNode)
    (h : tl.filter (fun row => row.series_name == series_name) = [r])
    (hm : ep.episodeNumber = some m) :
    buildRawRow series_name tl series_link seasons season ep =
      .ok { series_name := series_name, series_rank := r.series_rank,
            series_origin_year := r.series_origin_year,
            series_link := series_link, series_n_seasons := seasons,
            season := season, episode := m.content,
            episode_rating := ratingField ep.rating,
            episode_total_votes := votesField ep.totalVotes,
            episode_description := descField ep.description } := by
  unfold buildRawRow
  simp only [seriesItem_of_filter_eq _ _ _ r h]
  simp [numberAfterTry, findEpisodeNumberMeta, derefContent, hm]

/-- On a uniquely matching top list, a missing episode-number node makes
the loop body raise TypeError at `number["content"]`. -/
theorem buildRawRow_none_typeError (series_name : String) (tl : List TopRow)
    (series_link : String) (seasons season : Int) (ep : EpisodeInfo)
    (r : TopRow)
    (h : tl.filter (fun row => row.series_name == series_name) = [r])
    (hm : ep.episodeNumber = none) :
    buildRawRow series_name tl series_link seasons season ep =
      .error .typeError := by
  unfold buildRawRow
  simp only [seriesItem_of_filter_eq _ _ _ r h]
  simp [numberAfterTry, findEpisodeNumberMeta, derefContent, hm]

/-- On a uniquely matching top list, the only error the loop body can
raise is the TypeError of `number["content"]`. -/
theorem buildRawRow_error_typeError (series_name : String)
    (tl : List TopRow) (series_link : String) (seasons season : Int)
    (ep : EpisodeInfo) (r : TopRow) {e : PyError}
    (h : tl.filter (fun row => row.series_name == series_name) = [r])
    (herr : buildRawRow series_name tl series_link seasons season ep =
      .error e) :
    e = .typeError := by
  cases hm : ep.episodeNumber with
  | none =>
    rw [buildRawRow_none_typeError series_name tl series_link seasons season
      ep r h hm] at herr
    exact (Except.error.inj herr).symm
  | some m =>
    rw [buildRawRow_ok_fields series_name tl series_link seasons season
      ep r m h hm] at herr
    exact Except.noConfusion herr

/-- A successful `buildRawRow` implies the episode-number node was
present, and ties every output column to its extractor. -/
theorem buildRawRow_ok_inv (series_name : String) (tl : List TopRow)
    (series_link : String) (seasons season : Int) (ep : EpisodeInfo)
    (raw : RawEpisodeRow)
    (h : buildRawRow series_name tl series_link seasons season ep =
      .ok raw) :
    ∃ m, ep.episodeNumber = some m ∧ raw.episode = m.content ∧
      raw.episode_rating = ratingField ep.rating ∧
      raw.episode_total_votes = votesField ep.totalVotes ∧
      raw.episode_description = descField ep.description := by
  unfold buildRawRow at h
  cases h1 : seriesItem tl series_name (fun r => r.series_rank) with
  | error e => simp only [h1] at h; exact Except.noConfusion h
  | ok rank =>
  simp only [h1] at h
  cases h2 : seriesItem tl series_name (fun r => r.series_origin_year) with
  | error e => simp only [h2] at h; exact Except.noConfusion h
  | ok year =>
  simp only [h2] at h
  cases hm : ep.episodeNumber with
  | none =>
    simp [numberAfterTry, findEpisodeNumberMeta, derefContent, hm] at h
  | some m =>
    simp only [numberAfterTry, findEpisodeNumberMeta, derefContent, hm,
      Except.ok.injEq] at h
    subst h
    exact ⟨m, rfl, rfl, rfl, rfl, rfl⟩

/-! ### C4 -/

/-- C4: each of the three optional per-episode fields is extracted by its
own isolated try-block (`descField`, `ratingField`, `votesField`, each a
function of that field's node alone): a missing description yields
`"N/A"`, a missing rating yields the int sentinel `-1`, a missing
vote-count yields the int sentinel `0`; these sentinels also survive the
final `astype` pass; and with the episode-number node present the row is
built successfully whatever the three optional nodes are, each output
column depending only on its own node. -/
theorem optional_fields_isolated_fallback :
    descField none = "N/A" ∧
    ratingField none = .i (-1) ∧
    votesField none = .i 0 ∧
    pyFloatVal (ratingField none) = .ok (mkRat (-1) 1) ∧
    pyInt64Val (votesField none) = .ok 0 ∧
    (∀ series_name tl series_link seasons season ep r m,
      tl.filter (fun row => row.series_name == series_name) = [r] →
      ep.episodeNumber = some m →
      buildRawRow series_name tl series_link seasons season ep =
        .ok { series_name := series_name, series_rank := r.series_rank,
              series_origin_year := r.series_origin_year,
              series_link := series_link, series_n_seasons := seasons,
              season := season, episode := m.content,
              episode_rating := ratingField ep.rating,
              episode_total_votes := votesField ep.totalVotes,
              episode_description := descField ep.description }) :=
  ⟨rfl, rfl, rfl, by decide, by decide,
   fun series_name tl series_link seasons season ep r m h hm =>
     buildRawRow_ok_fields series_name tl series_link seasons season
       ep r m h hm⟩

/-- An episode block with all three optional nodes missing but an
episode-number node present. -/
def epAllMissing : EpisodeInfo :=
  { description := none, rating := none, totalVotes := none,
    episodeNumber := some { content := "1" } }

/-- Witness for C4: with every optional node missing, the row is still
built, with sentinels `"N/A"`, `-1` and `0`. -/
theorem optional_fields_isolated_fallback_witness :
    buildRawRow "Breaking Bad" [sampleRow] "/title/tt0903747/" 1 1
        epAllMissing =
      .ok { series_name := "Breaking Bad", series_rank := "1",
            series_origin_year := "2008",
            series_link := "/title/tt0903747/", series_n_seasons := 1,
            season := 1, episode := "1", episode_rating := .i (-1),
            episode_total_votes := .i 0, episode_description := "N/A" } :=
  optional_fields_isolated_fallback.2.2.2.2.2 "Breaking Bad" [sampleRow]
    "/title/tt0903747/" 1 1 epAllMissing sampleRow { content := "1" }
    (by decide) (by decide)

/-! ### Lemmas about the season loop -/

theorem seasonLoop_top_list (series_name : String) (tl : List TopRow)
    (link : Option String) (seasons : Int)
    (fetchSeason : String → SeasonPage) :
    ∀ (ss : List Int) (st : ScrapeState),
      ((seasonLoop series_name tl link seasons fetchSeason st ss).1).top_list =
        st.top_list := by
  intro ss
  induction ss with
  | nil => intro st; rfl
  | cons s rest ih =>
    intro st
    unfold seasonLoop
    cases link with
    | none => rfl
    | some l =>
      cases hscr : scrapeSeason series_name tl l seasons fetchSeason s with
      | error e => simp [hscr]
      | ok rows =>
        have ih2 := ih (emit st ("######## SEASON " ++ toString s ++ " SCRAPED"))
        simp only [emit_top_list] at ih2
        cases hrec : seasonLoop series_name tl (some l) seasons fetchSeason
            (emit st ("######## SEASON " ++ toString s ++ " SCRAPED")) rest with
        | mk st2 res =>
          rw [hrec] at ih2
          cases res with
          | error e => simp [hscr, hrec]; exact ih2
          | ok more => simp [hscr, hrec]; exact ih2

theorem seasonLoop_fails (series_name : String) (tl : List TopRow)
    (link : String) (seasons : Int) (fetchSeason : String → SeasonPage)
    (r : TopRow)
    (h : tl.filter (fun row => row.series_name == series_name) = [r]) :
    ∀ (ss : List Int) (st : ScrapeState) (s : Int) (ep : EpisodeInfo),
      s ∈ ss → ep ∈ (fetchSeason (seasonURL link s)).infos →
      ep.episodeNumber = none →
      (seasonLoop series_name tl (some link) seasons fetchSeason st ss).2 =
        .error .typeError := by
  intro ss
  induction ss with
  | nil => intro st s ep hs _ _; simp at hs
  | cons a rest ih =>
    intro st s ep hs hep hnone
    unfold seasonLoop
    cases hscr : scrapeSeason series_name tl link seasons fetchSeason a with
    | error e =>
      have hscr2 := hscr
      unfold scrapeSeason at hscr2
      obtain ⟨ep2, _, herr2⟩ := mapExcept_error_mem hscr2
      have he : e = .typeError :=
        buildRawRow_error_typeError series_name tl link seasons a ep2 r h herr2
      simp [hscr, he]
    | ok rows =>
      rcases List.mem_cons.mp hs with h1 | h2
      · subst h1
        have hb := buildRawRow_none_typeError series_name tl link seasons s
          ep r h hnone
        unfold scrapeSeason at hscr
        exact absurd hscr (mapExcept_not_ok hep hb)
      · have hrest := ih
          (emit st ("######## SEASON " ++ toString a ++ " SCRAPED")) s ep h2
          hep hnone
        cases hrec : seasonLoop series_name tl (some link) seasons fetchSeason
            (emit st ("######## SEASON " ++ toString a ++ " SCRAPED")) rest with
        | mk st2 res =>
          rw [hrec] at hrest
          cases res with
          | error e2 =>
            have he2 : e2 = .typeError := Except.error.inj hrest
            simp [hscr, hrec, he2]
          | ok more => exact Except.noConfusion hrest

theorem seasonLoop_ok_mem (series_name : String) (tl : List TopRow)
    (link : String) (seasons : Int) (fetchSeason : String → SeasonPage) :
    ∀ (ss : List Int) (st : ScrapeState) (raws : List RawEpisodeRow),
      (seasonLoop series_name tl (some link) seasons fetchSeason st ss).2 =
        .ok raws →
      ∀ raw ∈ raws, ∃ s ep,
        ep ∈ (fetchSeason (seasonURL link s)).infos ∧
        buildRawRow series_name tl link seasons s ep = .ok raw := by
  intro ss
  induction ss with
  | nil =>
    intro st raws hok raw hraw
    unfold seasonLoop at hok
    simp only [Except.ok.injEq] at hok
    subst hok
    simp at hraw
  | cons a rest ih =>
    intro st raws hok raw hraw
    unfold seasonLoop at hok
    cases hscr : scrapeSeason series_name tl link seasons fetchSeason a with
    | error e => simp [hscr] at hok
    | ok rows =>
      simp only [hscr] at hok
      cases hrec : seasonLoop series_name tl (some link) seasons fetchSeason
          (emit st ("######## SEASON " ++ toString a ++ " SCRAPED")) rest with
      | mk st2 res =>
        rw [hrec] at hok
        cases res with
        | error e => simp at hok
        | ok more =>
          simp only [Except.ok.injEq] at hok
          subst hok
          rcases List.mem_append.mp hraw with h1 | h2
          · unfold scrapeSeason at hscr
            obtain ⟨ep, hep, hb⟩ := mapExcept_ok_mem hscr h1
            exact ⟨a, ep, hep, hb⟩
          · exact ih (emit st ("######## SEASON " ++ toString a ++ " SCRAPED"))
              more (by rw [hrec]) raw h2

/-! ### Lemmas about `get_ratings` -/

theorem get_ratings_of_loop_error (series_name : String)
    (fetchDetail : String → DetailPage) (fetchSeason : String → SeasonPage)
    (st : ScrapeState) (r : TopRow) (seasons : Int) (e : PyError)
    (h : st.top_list.filter (fun row => row.series_name == series_name) = [r])
    (hls : (get_last_season series_name fetchDetail st).2 = .ok seasons)
    (hloop : (seasonLoop series_name st.top_list (some r.series_link)
        seasons fetchSeason
        (emit ((get_last_season series_name fetchDetail st).1)
          "##### GETTING EPISODES...")
        (seasonIndices seasons)).2 = .error e) :
    (get_ratings series_name fetchDetail fetchSeason st).2 = .error e := by
  unfold get_ratings
  simp only [lookupSeriesLink_of_filter_eq st series_name r h, hls,
    emit_top_list, get_last_season_top_list, hloop]

theorem get_ratings_of_loop_ok (series_name : String)
    (fetchDetail : String → DetailPage) (fetchSeason : String → SeasonPage)
    (st : ScrapeState) (r : TopRow) (seasons : Int)
    (raws : List RawEpisodeRow)
    (h : st.top_list.filter (fun row => row.series_name == series_name) = [r])
    (hls : (get_last_season series_name fetchDetail st).2 = .ok seasons)
    (hloop : (seasonLoop series_name st.top_list (some r.series_link)
        seasons fetchSeason
        (emit ((get_last_season series_name fetchDetail st).1)
          "##### GETTING EPISODES...")
        (seasonIndices seasons)).2 = .ok raws) :
    (get_ratings series_name fetchDetail fetchSeason st).2 =
      mapExcept astypeRow raws := by
  unfold get_ratings
  cases hast : mapExcept astypeRow raws with
  | error e2 =>
    simp only [lookupSeriesLink_of_filter_eq st series_name r h, hls,
      emit_top_list, get_last_season_top_list, hloop, hast]
  | ok rows =>
    simp only [lookupSeriesLink_of_filter_eq st series_name r h, hls,
      emit_top_list, get_last_season_top_list, hloop, hast]

theorem get_ratings_of_ambiguous (series_name : String)
    (fetchDetail : String → DetailPage) (fetchSeason : String → SeasonPage)
    (st : ScrapeState)
    (h : (st.top_list.filter
      (fun row => row.series_name == series_name)).length ≠ 1) :
    (get_ratings series_name fetchDetail fetchSeason st).2 =
      .error .nameError ∧
    (pyUpper series_name ++
        " references more than one series. Exclude it from the dataset.") ∈
      ((get_ratings series_name fetchDetail fetchSeason st).1).console := by
  have h2 : (((emit st (pyUpper series_name ++
      " references more than one series. Exclude it from the dataset.")).top_list).filter
      (fun row => row.series_name == series_name)).length ≠ 1 := by
    simpa [emit_top_list] using h
  have hinner := get_last_season_of_ambiguous series_name fetchDetail
    (emit st (pyUpper series_name ++
      " references more than one series. Exclude it from the dataset.")) h2
  unfold get_ratings
  simp only [lookupSeriesLink_of_filter_ne st series_name h, hinner.1]
  refine ⟨trivial, ?_⟩
  rw [hinner.2, emit_console]
  simp

theorem get_ratings_top_list (series_name : String)
    (fetchDetail : String → DetailPage) (fetchSeason : String → SeasonPage)
    (st : ScrapeState) :
    ((get_ratings series_name fetchDetail fetchSeason st).1).top_list =
      st.top_list := by
  unfold get_ratings lookupSeriesLink
  cases h : seriesItem st.top_list series_name (fun r => r.series_link) <;>
    simp only [h] <;>
    split <;>
    (try split) <;>
    (try split)
  all_goals
    simp [get_last_season_top_list, seasonLoop_top_list, emit_top_list]

/-! ### C10 -/

/-- C10: neither `get_last_season` nor `get_ratings` modifies the
`top_list` table held in the threaded state: for every input, the table
after either call is the table before it (both functions only select rows
from it and accumulate their results elsewhere). -/
theorem top_list_unmodified :
    (∀ (series_name : String) (fetchDetail : String → DetailPage)
        (st : ScrapeState),
      ((get_last_season series_name fetchDetail st).1).top_list =
        st.top_list) ∧
    (∀ (series_name : String) (fetchDetail : String → DetailPage)
        (fetchSeason : String → SeasonPage) (st : ScrapeState),
      ((get_ratings series_name fetchDetail fetchSeason st).1).top_list =
        st.top_list) :=
  ⟨get_last_season_top_list, get_ratings_top_list⟩

/-! ### C3 -/

/-- C3: the episode-number fallback is dead and absence is fatal.  The
`-1` sentinel of the except clause is assigned to the lookup result, and
since the soup `find` call cannot raise, the sentinel branch is never the
outcome; with a uniquely matching series, an info block whose
episode-number node is absent makes the loop body fail with TypeError at
the unconditional `number["content"]` dereference, and such a block on
any fetched season page aborts the whole `get_ratings` run with that
TypeError instead of producing a row with episode `-1`. -/
theorem episode_number_sentinel_dead :
    (∀ ep, numberAfterTry ep ≠ .sentinel) ∧
    (∀ (series_name : String) (tl : List TopRow) (series_link : String)
        (seasons season : Int) (ep : EpisodeInfo) (r : TopRow),
      tl.filter (fun row => row.series_name == series_name) = [r] →
      ep.episodeNumber = none →
      buildRawRow series_name tl series_link seasons season ep =
        .error .typeError) ∧
    (∀ (series_name : String) (fetchDetail : String → DetailPage)
        (fetchSeason : String → SeasonPage) (st : ScrapeState) (r : TopRow)
        (seasons s : Int) (ep : EpisodeInfo),
      st.top_list.filter (fun row => row.series_name == series_name) = [r] →
      (get_last_season series_name fetchDetail st).2 = .ok seasons →
      s ∈ seasonIndices seasons →
      ep ∈ (fetchSeason (seasonURL r.series_link s)).infos →
      ep.episodeNumber = none →
      (get_ratings series_name fetchDetail fetchSeason st).2 =
        .error .typeError) := by
  refine ⟨?_, ?_, ?_⟩
  · intro ep
    cases hm : ep.episodeNumber <;>
      simp [numberAfterTry, findEpisodeNumberMeta, hm]
  · intro series_name tl series_link seasons season ep r h hm
    exact buildRawRow_none_typeError series_name tl series_link seasons
      season ep r h hm
  · intro series_name fetchDetail fetchSeason st r seasons s ep h hls hs
      hep hnone
    have hloop := seasonLoop_fails series_name st.top_list r.series_link
      seasons fetchSeason r h (seasonIndices seasons)
      (emit ((get_last_season series_name fetchDetail st).1)
        "##### GETTING EPISODES...") s ep hs hep hnone
    exact get_ratings_of_loop_error series_name fetchDetail fetchSeason st
      r seasons .typeError h hls hloop

/-- A season page whose single info block lacks the episode-number meta
node. -/
def sampleSeasonNoNumber : String → SeasonPage := fun _ =>
  { infos := [{ description := some "A fine episode.",
                rating := some "8.0", totalVotes := some "(10)",
                episodeNumber := none }] }

/-- Witness for C3: one missing episode-number node aborts the whole
collection run with TypeError. -/
theorem episode_number_sentinel_dead_witness :
    (get_ratings "Breaking Bad" sampleDetailSingle sampleSeasonNoNumber
        sampleState).2 = .error .typeError :=
  episode_number_sentinel_dead.2.2 "Breaking Bad" sampleDetailSingle
    sampleSeasonNoNumber sampleState sampleRow 1 1
    { description := some "A fine episode.", rating := some "8.0",
      totalVotes := some "(10)", episodeNumber := none }
    (by decide) (by decide) (by decide) (by decide) (by decide)

/-! ### C6 -/

/-- C6: the series link is looked up by exact equality of `series_name`
against the top list; when zero or several rows match, the ambiguity
message is printed, but the function neither returns nor raises a typed
error at the lookup boundary — execution continues past the except clause
and fails only at the use of the unbound `series_link` (the NameError of
the URL f-string), in both `get_last_season` and `get_ratings`. -/
theorem ambiguous_lookup_message_and_continue (series_name : String)
    (fetchDetail : String → DetailPage) (fetchSeason : String → SeasonPage)
    (st : ScrapeState)
    (h : (st.top_list.filter
      (fun row => row.series_name == series_name)).length ≠ 1) :
    ((pyUpper series_name ++
        " references more than one series. Exclude it from the dataset.") ∈
        ((get_last_season series_name fetchDetail st).1).console ∧
      (get_last_season series_name fetchDetail st).2 =
        .error .nameError) ∧
    ((pyUpper series_name ++
        " references more than one series. Exclude it from the dataset.") ∈
        ((get_ratings series_name fetchDetail fetchSeason st).1).console ∧
      (get_ratings series_name fetchDetail fetchSeason st).2 =
        .error .nameError) := by
  have h1 := get_last_season_of_ambiguous series_name fetchDetail st h
  have h2 := get_ratings_of_ambiguous series_name fetchDetail fetchSeason
    st h
  exact ⟨⟨by rw [h1.2]; simp, h1.1⟩, ⟨h2.2, h2.1⟩⟩

/-- First of two distinct rows sharing the name House of Cards. -/
def hocRow1 : TopRow :=
  { series_name := "House of Cards", series_rank := "150",
    series_origin_year := "1990", series_link := "/title/tt0098825/",
    series_id := "House of Cards (1990)" }

/-- Second of two distinct rows sharing the name House of Cards. -/
def hocRow2 : TopRow :=
  { series_name := "House of Cards", series_rank := "151",
    series_origin_year := "2013", series_link := "/title/tt1856010/",
    series_id := "House of Cards (2013)" }

/-- A two-row state in which the name House of Cards is ambiguous. -/
def hocState : ScrapeState := { top_list := [hocRow1, hocRow2], console := [] }

/-- A season fetch returning a page without info blocks. -/
def emptySeasonFetch : String → SeasonPage := fun _ => { infos := [] }

/-- Witness for C6: with two rows named House of Cards, both functions
print the ambiguity message and end with the NameError of the URL
f-string. -/
theorem ambiguous_lookup_message_and_continue_witness :
    (("HOUSE OF CARDS references more than one series. Exclude it from the dataset.") ∈
        ((get_last_season "House of Cards" sampleDetailSingle hocState).1).console ∧
      (get_last_season "House of Cards" sampleDetailSingle hocState).2 =
        .error .nameError) ∧
    (("HOUSE OF CARDS references more than one series. Exclude it from the dataset.") ∈
        ((get_ratings "House of Cards" sampleDetailSingle emptySeasonFetch
            hocState).1).console ∧
      (get_ratings "House of Cards" sampleDetailSingle emptySeasonFetch
          hocState).2 = .error .nameError) :=
  ambiguous_lookup_message_and_continue "House of Cards"
    sampleDetailSingle emptySeasonFetch hocState (by decide)

/-! ### C7 -/

/-- A season page with one complete episode info block. -/
def sampleSeasonGood : String → SeasonPage := fun _ =>
  { infos := [{ description := some "A fine episode.",
                rating := some "8.4", totalVotes := some "(1,234)",
                episodeNumber := some { content := "3" } }] }

/-- C7: end-to-end episode scenario.  On a one-season series whose season
page holds one info block with rating text `"8.4"`, vote text
`"(1,234)"`, a description, and episode-number content `"3"`,
`get_ratings` returns exactly one row with `episode = 3` (int64),
`episode_rating = 8.4` (float64, the rational 42/5) and
`episode_total_votes = 1234` (int64): the parentheses and the thousands
separator are stripped from the vote text and the final one-pass
`astype` coerces the three columns. -/
theorem get_ratings_end_to_end :
    (get_ratings "Breaking Bad" sampleDetailSingle sampleSeasonGood
        sampleState).2 =
      .ok [{ series_name := "Breaking Bad", series_rank := 1,
             series_origin_year := 2008,
             series_link := "/title/tt0903747/", series_n_seasons := 1,
             season := 1, episode := 3, episode_rating := mkRat 42 5,
             episode_total_votes := 1234,
             episode_description := "A fine episode." }] ∧
    (mkRat 42 5 : ℚ) = 8.4 := by
  constructor
  · decide
  · norm_num [mkRat, Rat.normalize]

theorem seriesItem_link_cases (st : ScrapeState) (series_name : String) :
    (∃ r, st.top_list.filter
      (fun row => row.series_name == series_name) = [r]) ∨
    (st.top_list.filter
      (fun row => row.series_name == series_name)).length ≠ 1 := by
  cases hf : st.top_list.filter (fun row => row.series_name == series_name) with
  | nil => right; simp
  | cons a t =>
    cases t with
    | nil => left; exact ⟨a, rfl⟩
    | cons b t2 => right; simp

theorem get_ratings_ok_inv (series_name : String)
    (fetchDetail : String → DetailPage) (fetchSeason : String → SeasonPage)
    (st : ScrapeState) (rows : List EpisodeRow)
    (hok : (get_ratings series_name fetchDetail fetchSeason st).2 =
      .ok rows) :
    ∃ raws, mapExcept astypeRow raws = .ok rows ∧
      ∀ raw ∈ raws, ∃ link seasons s ep,
        ep ∈ (fetchSeason (seasonURL link s)).infos ∧
        buildRawRow series_name st.top_list link seasons s ep = .ok raw := by
  rcases seriesItem_link_cases st series_name with ⟨r, hf⟩ | hne
  · cases hls : (get_last_season series_name fetchDetail st).2 with
    | error e =>
      unfold get_ratings at hok
      simp only [lookupSeriesLink_of_filter_eq st series_name r hf, hls]
        at hok
      exact Except.noConfusion hok
    | ok seasons =>
      cases hloop : (seasonLoop series_name st.top_list (some r.series_link)
          seasons fetchSeason
          (emit ((get_last_season series_name fetchDetail st).1)
            "##### GETTING EPISODES...")
          (seasonIndices seasons)).2 with
      | error e =>
        rw [get_ratings_of_loop_error series_name fetchDetail fetchSeason
          st r seasons e hf hls hloop] at hok
        exact Except.noConfusion hok
      | ok raws =>
        rw [get_ratings_of_loop_ok series_name fetchDetail fetchSeason st
          r seasons raws hf hls hloop] at hok
        refine ⟨raws, hok, ?_⟩
        intro raw hraw
        obtain ⟨s, ep, hep, hb⟩ := seasonLoop_ok_mem series_name
          st.top_list r.series_link seasons fetchSeason
          (seasonIndices seasons) _ raws hloop raw hraw
        exact ⟨r.series_link, seasons, s, ep, hep, hb⟩
  · have hamb := (get_ratings_of_ambiguous series_name fetchDetail
      fetchSeason st hne).1
    rw [hamb] at hok
    exact Except.noConfusion hok

/-- `mkRat` with denominator one is the integer cast into ℚ. -/
theorem mkRat_one_den (n : Int) : mkRat n 1 = (n : ℚ) := by
  simp [mkRat, Rat.normalize]

/-! ### C8 -/

/-- A season page whose single info block carries rating text "77", vote
text "(-5)" and a whitespace-only description. -/
def badSeasonFetch : String → SeasonPage := fun _ =>
  { infos := [{ description := some "   ", rating := some "77",
                totalVotes := some "(-5)",
                episodeNumber := some { content := "1" } }] }

/-- Counterexample to C8 as stated: nothing in the code bounds the
scraped texts, so a season page with rating text "77", vote text "(-5)"
and a whitespace-only description yields a returned row violating every
clause of the claimed invariant: its rating 77 is neither -1 nor within
[0, 10], its vote count -5 is negative and nonzero, and its description
is empty yet not "N/A". -/
theorem episode_row_invariant_cex :
    (get_ratings "Breaking Bad" sampleDetailSingle badSeasonFetch
        sampleState).2 =
      .ok [{ series_name := "Breaking Bad", series_rank := 1,
             series_origin_year := 2008,
             series_link := "/title/tt0903747/", series_n_seasons := 1,
             season := 1, episode := 1, episode_rating := mkRat 77 1,
             episode_total_votes := -5, episode_description := "" }] ∧
    ¬(mkRat 77 1 = (-1 : ℚ) ∨
      (0 ≤ (mkRat 77 1 : ℚ) ∧ (mkRat 77 1 : ℚ) ≤ 10)) ∧
    ¬((-5 : Int) = 0 ∨ 0 ≤ (-5 : Int)) ∧
    ¬(("" : String) ≠ "" ∨ ("" : String) = "N/A") := by
  refine ⟨by decide, ?_, by decide, by decide⟩
  rw [mkRat_one_den]
  norm_num

/-- C8 (amended): each produced row carries either the sentinel or the
value parsed from its own page text: the rating is -1 or the float value
of the rating text, the vote count is 0 or the int64 value of the cleaned
vote text, and the description is "N/A" or the stripped description text.
Consequently the claimed invariant holds of every row whenever every
rating text on the fetched season pages parses to a value within
[0, 10], every cleaned vote text parses to a non-negative int64, and no
description text consists of whitespace only. -/
theorem episode_row_invariant_conditional (series_name : String)
    (fetchDetail : String → DetailPage) (fetchSeason : String → SeasonPage)
    (st : ScrapeState) (rows : List EpisodeRow)
    (hrating : ∀ (u : String) (ep : EpisodeInfo),
      ep ∈ (fetchSeason u).infos → ∀ t, ep.rating = some t →
        ∃ q, pyFloat t = some q ∧ 0 ≤ q ∧ q ≤ 10)
    (hvotes : ∀ (u : String) (ep : EpisodeInfo),
      ep ∈ (fetchSeason u).infos → ∀ t, ep.totalVotes = some t →
        ∃ n, pyInt64 (cleanVotes t) = .ok n ∧ 0 ≤ n)
    (hdesc : ∀ (u : String) (ep : EpisodeInfo),
      ep ∈ (fetchSeason u).infos → ∀ t, ep.description = some t →
        pyStrip t ≠ "")
    (hok : (get_ratings series_name fetchDetail fetchSeason st).2 =
      .ok rows) :
    ∀ row ∈ rows,
      (row.episode_rating = -1 ∨
        (0 ≤ row.episode_rating ∧ row.episode_rating ≤ 10)) ∧
      (row.episode_total_votes = 0 ∨ 0 ≤ row.episode_total_votes) ∧
      (row.episode_description ≠ "" ∨ row.episode_description = "N/A") := by
  intro row hrow
  obtain ⟨raws, hast, hprov⟩ := get_ratings_ok_inv series_name fetchDetail
    fetchSeason st rows hok
  obtain ⟨raw, hraw, hastrow⟩ := mapExcept_ok_mem hast hrow
  obtain ⟨-, -, -, hratv, hvotv, hdescv, -⟩ :=
    astypeRow_ok_fields raw row hastrow
  obtain ⟨link, seasons, s, ep, hep, hb⟩ := hprov raw hraw
  obtain ⟨m, -, -, hrf, hvf, hdf⟩ := buildRawRow_ok_inv series_name
    st.top_list link seasons s ep raw hb
  refine ⟨?_, ?_, ?_⟩
  · rw [hrf] at hratv
    cases ht : ep.rating with
    | none =>
      rw [ht] at hratv
      simp only [ratingField, pyFloatVal] at hratv
      left
      rw [← Except.ok.inj hratv, mkRat_one_den]
      norm_num
    | some t =>
      rw [ht] at hratv
      obtain ⟨q, hq, h0, h10⟩ := hrating _ ep hep t ht
      simp only [ratingField, pyFloatVal, hq] at hratv
      right
      rw [← Except.ok.inj hratv]
      exact ⟨h0, h10⟩
  · rw [hvf] at hvotv
    cases ht : ep.totalVotes with
    | none =>
      rw [ht] at hvotv
      have h0 : pyInt64Val (votesField none) = .ok 0 := by decide
      rw [h0] at hvotv
      left
      exact (Except.ok.inj hvotv).symm
    | some t =>
      rw [ht] at hvotv
      obtain ⟨n, hn, hpos⟩ := hvotes _ ep hep t ht
      simp only [votesField, pyInt64Val, hn] at hvotv
      right
      rw [← Except.ok.inj hvotv]
      exact hpos
  · rw [hdescv, hdf]
    cases ht : ep.description with
    | none => right; rfl
    | some t =>
      left
      simp only [descField]
      exact hdesc _ ep hep t ht

/-- Witness for C8 (amended): in the one-episode run with rating "8.4",
votes "(1,234)" and a non-blank description, the returned row satisfies
the invariant. -/
theorem episode_row_invariant_conditional_witness :
    (mkRat 42 5 = (-1 : ℚ) ∨
      (0 ≤ (mkRat 42 5 : ℚ) ∧ (mkRat 42 5 : ℚ) ≤ 10)) ∧
    ((1234 : Int) = 0 ∨ (0 : Int) ≤ 1234) ∧
    (("A fine episode." : String) ≠ "" ∨
      ("A fine episode." : String) = "N/A") :=
  episode_row_invariant_conditional "Breaking Bad" sampleDetailSingle
    sampleSeasonGood sampleState
    [{ series_name := "Breaking Bad", series_rank := 1,
       series_origin_year := 2008, series_link := "/title/tt0903747/",
       series_n_seasons := 1, season := 1, episode := 3,
       episode_rating := mkRat 42 5, episode_total_votes := 1234,
       episode_description := "A fine episode." }]
    (fun _ ep hep t ht => by
      simp only [sampleSeasonGood, List.mem_singleton] at hep
      subst hep
      exact ⟨mkRat 42 5, by rw [← Option.some.inj ht]; decide,
        by decide, by decide⟩)
    (fun _ ep hep t ht => by
      simp only [sampleSeasonGood, List.mem_singleton] at hep
      subst hep
      exact ⟨1234, by rw [← Option.some.inj ht]; decide, by decide⟩)
    (fun _ ep hep t ht => by
      simp only [sampleSeasonGood, List.mem_singleton] at hep
      subst hep
      rw [← Option.some.inj ht]
      decide)
    (by decide)
    { series_name := "Breaking Bad", series_rank := 1,
      series_origin_year := 2008, series_link := "/title/tt0903747/",
      series_n_seasons := 1, season := 1, episode := 3,
      episode_rating := mkRat 42 5, episode_total_votes := 1234,
      episode_description := "A fine episode." }
    (by decide)
